import Mathlib

/-
Verification development for the elibrary-judiciary-data-scrape repository
(src/main.py and src/link_scraper.py): a shallow embedding, in Lean 4, of the
retry loops, the JSON recovery ladder, the post-parse validation, the link
extraction, the spreadsheet merge policy and the top-level pipeline, together
with theorems settling the specification claims about them.

External libraries (google-genai, requests, json, json_repair, re, pandas,
urllib.parse) are modelled at their call boundary: an attempt of a network or
inference call is an oracle value saying whether it returned or raised and
what the raised exception looks like to the handler in the source; the JSON
parsers are oracle functions returning an optional parsed value (none models
a raised exception).  The control flow around those boundaries is translated
directly from the source.
-/

/- ===== C1: call_model_with_retries (src/main.py lines 41-63) ===== -/

/-- One attempt of client.models.generate_content inside
call_model_with_retries: either a returned response, or a raised exception.
A raised exception is represented by the numeric status code that the
handler in src/main.py lines 49-57 extracts from it (none when no status
could be extracted, matching `status = None`). -/
inductive AttemptResult (R : Type) where
  | ok (r : R)
  | exc (status : Option Int)
deriving DecidableEq

/-- Final outcome of call_model_with_retries: a returned response, a
re-raised exception (identified by its extracted status), or the implicit
`return None` reached when the loop body never runs (max_retries < 1). -/
inductive CallOutcome (R : Type) where
  | returned (r : R)
  | raised (status : Option Int)
  | fellOff
deriving DecidableEq

/-- Trace of one run of call_model_with_retries: its outcome, the sequence of
time.sleep delays performed, and the 1-based indices of the attempts made. -/
structure CallTrace (R : Type) where
  outcome : CallOutcome R
  sleeps : List Nat
  tried : List Nat
deriving DecidableEq

/-- TRANSIENT_STATUS from src/main.py line 43. -/
def TRANSIENT_STATUS : List Int := [429, 500, 502, 503, 504]

/-- `status in TRANSIENT_STATUS` from src/main.py line 58; a missing status
(None) is never in the set. -/
def isTransientStatus : Option Int → Bool
  | some s => TRANSIENT_STATUS.contains s
  | none => false

/-- The retry loop of call_model_with_retries (src/main.py lines 44-63).
`fuel` is the number of loop iterations still available
(`max_retries - a + 1` on entry with attempt counter `a`), `a` is the current
value of `attempt`, `delay` the current delay.  On an exception the code
raises when `not is_transient or attempt == max_retries`, otherwise it sleeps
`delay`, doubles it, and continues with the next attempt. -/
def callLoop (attempt : Nat → AttemptResult R) (maxRetries : Nat) :
    Nat → Nat → Nat → CallTrace R
  | 0, _, _ => ⟨CallOutcome.fellOff, [], []⟩
  | fuel + 1, a, delay =>
    match attempt a with
    | AttemptResult.ok r => ⟨CallOutcome.returned r, [], [a]⟩
    | AttemptResult.exc st =>
      if isTransientStatus st = false ∨ a = maxRetries then
        ⟨CallOutcome.raised st, [], [a]⟩
      else
        let rest := callLoop attempt maxRetries fuel (a + 1) (delay * 2)
        ⟨rest.outcome, delay :: rest.sleeps, a :: rest.tried⟩

/-- call_model_with_retries (src/main.py line 41): run the loop from
attempt 1 with the initial delay (defaults max_retries=4, initial_delay=2). -/
def call_model_with_retries (attempt : Nat → AttemptResult R)
    (maxRetries initialDelay : Nat) : CallTrace R :=
  callLoop attempt maxRetries maxRetries 1 initialDelay

/- ===== C4: fetch_page_with_retries (src/link_scraper.py lines 39-57 and
src/main.py lines 66-78) ===== -/

/-- An exception raised by requests.get or raise_for_status, as the except
clause sees it: whether it is an instance of requests.RequestException
(src/link_scraper.py line 49 catches requests.RequestException; src/main.py
line 73 catches the tuple (RequestException, HTTPError), whose second member
is a subclass of the first, so both catch exactly the RequestException
hierarchy), plus a tag naming the concrete exception class. -/
structure PyExc where
  isRequestException : Bool
  tag : String
deriving DecidableEq

/-- One attempt of `requests.get(url, timeout=...); resp.raise_for_status()`:
either a returned response (tagged) or a raised exception. -/
inductive FetchAttempt where
  | ok (respTag : String)
  | exc (e : PyExc)
deriving DecidableEq

/-- Final outcome of fetch_page_with_retries. -/
inductive FetchOutcome where
  | returned (respTag : String)
  | raised (e : PyExc)
  | fellOff
deriving DecidableEq

/-- Trace of one run of fetch_page_with_retries: outcome, the time.sleep
delays performed, and the 1-based indices of the attempts made. -/
structure FetchTrace where
  outcome : FetchOutcome
  sleeps : List Nat
  tried : List Nat
deriving DecidableEq

/-- The retry loop of fetch_page_with_retries.  An exception that is a
RequestException is retried while `attempt < max_retries` (sleep, double the
delay) and re-raised on the last attempt; an exception outside the caught
class is not handled by the except clause and propagates at once
(src/link_scraper.py lines 44-57, src/main.py lines 68-78). -/
def fetchLoop (attempt : Nat → FetchAttempt) (maxRetries : Nat) :
    Nat → Nat → Nat → FetchTrace
  | 0, _, _ => ⟨FetchOutcome.fellOff, [], []⟩
  | fuel + 1, a, delay =>
    match attempt a with
    | FetchAttempt.ok r => ⟨FetchOutcome.returned r, [], [a]⟩
    | FetchAttempt.exc e =>
      if e.isRequestException then
        if a < maxRetries then
          let rest := fetchLoop attempt maxRetries fuel (a + 1) (delay * 2)
          ⟨rest.outcome, delay :: rest.sleeps, a :: rest.tried⟩
        else ⟨FetchOutcome.raised e, [], [a]⟩
      else ⟨FetchOutcome.raised e, [], [a]⟩

/-- fetch_page_with_retries: run the loop from attempt 1.  In
src/link_scraper.py the defaults are max_retries=3 with initial delay 1; in
src/main.py they are max_retries=4 with initial delay 2. -/
def fetch_page_with_retries (attempt : Nat → FetchAttempt)
    (maxRetries initialDelay : Nat) : FetchTrace :=
  fetchLoop attempt maxRetries maxRetries 1 initialDelay

/-- For a malformed URL (e.g. one with no scheme), requests.get raises
requests.exceptions.MissingSchema, which subclasses
requests.exceptions.InvalidURL and hence requests.exceptions.RequestException,
so the except clause of fetch_page_with_retries catches it. -/
def missingSchemaExc : PyExc := ⟨true, "MissingSchema"⟩

/-- A fetch of a malformed URL: every attempt raises MissingSchema. -/
def malformedURLAttempt : Nat → FetchAttempt :=
  fun _ => FetchAttempt.exc missingSchemaExc

/- ===== C3: the JSON recovery ladder (src/main.py lines 218-238) ===== -/

/-- Oracles for the external parsing libraries used by the ladder:
jsonLoads models json.loads (none = a raised json.JSONDecodeError),
jsonRepairLoads models json_repair.loads (none = a raised exception), and
regexSearchArrayOfObjects models
re.search of the pattern for a JSON-array-of-objects shaped substring
(src/main.py line 226), returning the matched group when there is one. -/
structure JsonOracles (J : Type) where
  jsonLoads : String → Option J
  jsonRepairLoads : String → Option J
  regexSearchArrayOfObjects : String → Option String

/-- Outcome of the recovery block: a parsed value; or failure after writing
the raw text to a debug_bad_json artifact and raising
ValueError("Could not parse JSON response even with repairs")
(src/main.py lines 234-238); or failure by the uncaught exception of
json_repair.loads on the regex-extracted substring (src/main.py line 231),
which writes no artifact. -/
inductive RecoverResult (J : Type) where
  | parsed (j : J)
  | failedWithDebugArtifact (raw : String)
  | failedRepairRaised

/-- The JSON recovery block of src/main.py lines 218-238, translated
clause by clause from its try/except structure. -/
def recoverJson (O : JsonOracles J) (raw : String) : RecoverResult J :=
  match O.jsonLoads raw with
  | some v => RecoverResult.parsed v
  | none =>
    match O.jsonRepairLoads raw with
    | some v => RecoverResult.parsed v
    | none =>
      match O.regexSearchArrayOfObjects raw with
      | some sub =>
        match O.jsonLoads sub with
        | some v => RecoverResult.parsed v
        | none =>
          match O.jsonRepairLoads sub with
          | some v => RecoverResult.parsed v
          | none => RecoverResult.failedRepairRaised
      | none => RecoverResult.failedWithDebugArtifact raw

/-- The parsed value recovered, if any. -/
def parsedValue : RecoverResult J → Option J
  | RecoverResult.parsed v => some v
  | _ => none

/-- Whether the outcome wrote a debug_bad_json artifact. -/
def debugArtifactWritten : RecoverResult J → Bool
  | RecoverResult.failedWithDebugArtifact _ => true
  | _ => false

/-- The four ladder steps of the claim, in order: direct parse of the full
text, repair of the full text, direct parse of the regex-extracted substring,
repair of that substring (a missing substring makes steps 3 and 4 fail). -/
def ladderSteps (O : JsonOracles J) (raw : String) : List (Option J) :=
  [O.jsonLoads raw, O.jsonRepairLoads raw,
   (O.regexSearchArrayOfObjects raw).bind O.jsonLoads,
   (O.regexSearchArrayOfObjects raw).bind O.jsonRepairLoads]

/-- First successful result in a list of attempts. -/
def firstSome : List (Option J) → Option J
  | [] => none
  | some v :: _ => some v
  | none :: rest => firstSome rest

/-- Concrete oracle behaviours refuting C1's all-four-fail clause of the
ladder claim: both parsers fail on every input, while the regex finds an
array-of-objects shaped substring, as re.search does on the text
"pre [ \x7bbad\x7d ] post". -/
def c3CexOracles : JsonOracles Unit :=
  { jsonLoads := fun _ => none
    jsonRepairLoads := fun _ => none
    regexSearchArrayOfObjects := fun _ => some ("[ \x7bbad\x7d ]") }

/- ===== C5: post-parse validation (src/main.py lines 240-245) ===== -/

/-- A Python value as produced by the JSON parsers. -/
inductive PyValue where
  | str (s : String)
  | int (n : Int)
  | bool (b : Bool)
  | pyNone
  | list (xs : List PyValue)
  | dict (entries : List (String × PyValue))

/-- isinstance(v, list). -/
def isPyList : PyValue → Bool
  | PyValue.list _ => true
  | _ => false

/-- The elements of a Python list (what all_new_data.extend iterates). -/
def pyListElems : PyValue → List PyValue
  | PyValue.list xs => xs
  | _ => []

/-- len(v) for the values it is called on here. -/
def pyLen : PyValue → Nat
  | PyValue.list xs => xs.length
  | PyValue.dict es => es.length
  | PyValue.str s => s.length
  | _ => 0

/-- src/main.py lines 240-245: raise ValueError unless new_data is a list of
length exactly 1, else all_new_data.extend(new_data). -/
def validateAndExtend (allNewData : List PyValue) (newData : PyValue) :
    Except String (List PyValue) :=
  if isPyList newData = false ∨ pyLen newData ≠ 1 then
    Except.error ("Gemini response must be a JSON array with exactly one object.")
  else Except.ok (allNewData ++ pyListElems newData)

/-- The ok value of an Except, if any. -/
def exceptOkValue : Except String (List PyValue) → Option (List PyValue)
  | Except.ok v => some v
  | Except.error _ => none

/-- Modelled from the claim's words: the value is a mapping. -/
def isMapping : PyValue → Bool
  | PyValue.dict _ => true
  | _ => false

/-- Modelled from the claim's words: a sequence of exactly one element whose
sole element is a mapping. -/
def isOneElementMappingSeq : PyValue → Bool
  | PyValue.list [v] => isMapping v
  | _ => false

/-- The amended condition: a sequence of exactly one element, of any type. -/
def isOneElementList : PyValue → Bool
  | PyValue.list [_] => true
  | _ => false

/- ===== C2 and C9: the Tabular Sink (src/main.py lines 255-283) ===== -/

/-- A pandas DataFrame, seen as its column header sequence and its rows;
the row representation is abstract. -/
structure DataFrame (ρ : Type) where
  columns : List String
  rows : List ρ

/-- expected_columns from src/main.py line 99. -/
def expected_columns : List String :=
  ["Case Number", "Case Title", "Facts", "Decision", "Ruling", "Verdict"]

/-- pd.concat([a, b], ignore_index=True): rows of a followed by rows of b;
columns of a followed by the columns of b not already present. -/
def pdConcat (a b : DataFrame ρ) : DataFrame ρ :=
  { columns := a.columns ++ b.columns.filter (fun c => decide (c ∉ a.columns))
    rows := a.rows ++ b.rows }

/-- Outcome of the sink: the DataFrame written by to_excel, or an abort.
The merge logic of src/main.py lines 262-283 never aborts; the constructor
exists so that not-aborting is expressible. -/
inductive SinkOutcome (ρ : Type) where
  | written (df : DataFrame ρ)
  | aborted (msg : String)

/-- src/main.py lines 262-283.  `fileExists` is os.path.exists(EXCEL_FILENAME);
`readResult` is the result of pd.read_excel, none when it raised (the except
branch of line 275 warns and keeps only the new data).  When the existing
data has more than zero rows and a header differing from expected_columns the
new data overwrites it; otherwise the two frames are concatenated.  The
resulting frame is written back with to_excel. -/
def mergeAndWrite (fileExists : Bool) (readResult : Option (DataFrame ρ))
    (dfNew : DataFrame ρ) : SinkOutcome ρ :=
  if fileExists then
    match readResult with
    | some dfEx =>
      if 0 < dfEx.rows.length ∧ dfEx.columns ≠ expected_columns then
        SinkOutcome.written dfNew
      else SinkOutcome.written (pdConcat dfEx dfNew)
    | none => SinkOutcome.written dfNew
  else SinkOutcome.written dfNew

/-- The rows of the written frame (empty for an abort). -/
def writtenRows : SinkOutcome ρ → List ρ
  | SinkOutcome.written df => df.rows
  | SinkOutcome.aborted _ => []

/- ===== C6 and C7: extract_links (src/link_scraper.py lines 60-92) ===== -/

/-- The characters str.strip() removes. -/
def pyWhitespaceChar (c : Char) : Bool :=
  c == ' ' || c == '\t' || c == '\n' || c == '\r' || c == '\x0b' || c == '\x0c'

/-- Python str.strip(): drop leading and trailing whitespace. -/
def pyStrip (s : String) : String :=
  String.mk (((s.data.dropWhile pyWhitespaceChar).reverse.dropWhile
    pyWhitespaceChar).reverse)

/-- Python url.rstrip('/'): drop trailing slashes
(src/link_scraper.py line 63). -/
def rstripSlash (s : String) : String :=
  String.mk ((s.data.reverse.dropWhile (fun c => c == '/')).reverse)

/-- Whether one character list starts with another. -/
def charsStartWith : List Char → List Char → Bool
  | _, [] => true
  | [], _ => false
  | c :: cs, p :: ps => c == p && charsStartWith cs ps

/-- Whether one character list occurs inside another. -/
def charsContain : List Char → List Char → Bool
  | [], pat => charsStartWith [] pat
  | c :: rest, pat => charsStartWith (c :: rest) pat || charsContain rest pat

/-- Python s.startswith(pat). -/
def strStartsWith (s pat : String) : Bool :=
  charsStartWith s.data pat.data

/-- The characters of the scheme separator "://". -/
def schemeSepChars : List Char := [':', '/', '/']

/-- Whether an href carries its own scheme (contains "://"). -/
def hrefHasScheme (href : String) : Bool :=
  charsContain href.data schemeSepChars

/-- Split a character list at the first occurrence of "://", returning the
parts before and after it (how urlsplit separates scheme from the rest). -/
def splitOnSchemeSep : List Char → Option (List Char × List Char)
  | [] => none
  | c :: rest =>
    if charsStartWith (c :: rest) schemeSepChars then some ([], rest.drop 2)
    else
      match splitOnSchemeSep rest with
      | some (pre, post) => some (c :: pre, post)
      | none => none

/-- Python path.split('/') on a character list. -/
def splitSegments : List Char → List (List Char)
  | [] => [[]]
  | c :: rest =>
    match splitSegments rest with
    | [] => [[]]
    | seg :: more => if c == '/' then [] :: seg :: more else (c :: seg) :: more

/-- Python '/'.join on segment lists. -/
def joinSlash : List (List Char) → List Char
  | [] => []
  | [s] => s
  | s :: rest => s ++ '/' :: joinSlash rest

/-- The segment ".". -/
def dotSeg : List Char := ['.']

/-- The segment "..". -/
def dotDotSeg : List Char := ['.', '.']

/-- Drop empty segments except the final one (the effect of CPython's
`segments[1:-1] = filter(None, segments[1:-1])` on the tail of the merged
segment list, whose first element is handled by filterMiddleEmpty). -/
def keepLastFilter : List (List Char) → List (List Char)
  | [] => []
  | [s] => [s]
  | s :: rest => if s.isEmpty then keepLastFilter rest else s :: keepLastFilter rest

/-- CPython's `segments[1:-1] = filter(None, segments[1:-1])`: the first and
last segments are kept unconditionally, empty segments between them are
dropped. -/
def filterMiddleEmpty : List (List Char) → List (List Char)
  | [] => []
  | first :: rest => first :: keepLastFilter rest

/-- The resolution loop of CPython's urljoin: ".." pops the last resolved
segment (silently ignoring an empty stack), "." is skipped, any other
segment is appended.  `acc` holds the resolved path in reverse. -/
def resolveSegsAux : List (List Char) → List (List Char) → List (List Char)
  | acc, [] => acc.reverse
  | acc, seg :: rest =>
    if seg = dotDotSeg then resolveSegsAux acc.tail rest
    else if seg = dotSeg then resolveSegsAux acc rest
    else resolveSegsAux (seg :: acc) rest

/-- CPython's dot-segment resolution, with its post-processing: when the
last input segment is "." or ".." a trailing empty segment is appended so
the joined path ends in '/'. -/
def resolveSegs (segs : List (List Char)) : List (List Char) :=
  let r := resolveSegsAux [] segs
  match segs.getLast? with
  | some l => if l = dotSeg ∨ l = dotDotSeg then r ++ [[]] else r
  | none => r

/-- The base-path segments used for merging a relative reference: the base's
path split on '/', with the final segment deleted when it is nonempty
(CPython: `if base_parts[-1] != '': del base_parts[-1]`). -/
def baseSegmentsForMerge (base : String) : List (List Char) :=
  let bpath :=
    match splitOnSchemeSep base.data with
    | some (_, post) => post.dropWhile (fun c => c != '/')
    | none => base.data
  let parts := splitSegments bpath
  if parts.getLast? = some [] then parts else parts.dropLast

/-- Reassemble scheme://netloc with the dot-resolved path (CPython's
urlunsplit: an empty joined path becomes '/', and with a netloc present a
path not starting with '/' gets one prepended). -/
def rebuildFromBase (base : String) (segs : List (List Char)) : String :=
  let joined := joinSlash (resolveSegs segs)
  let path := if joined.isEmpty then ['/'] else joined
  match splitOnSchemeSep base.data with
  | some (pre, post) =>
    let netloc := post.takeWhile (fun c => c != '/')
    let fullPath :=
      match path with
      | '/' :: _ => path
      | _ => '/' :: path
    String.mk (pre ++ schemeSepChars ++ netloc ++ fullPath)
  | none => String.mk path

/-- Model of urllib.parse.urljoin(base, href) following CPython's algorithm
for the references the scraper produces (path references without query or
fragment): an href with its own scheme is returned as is; an href starting
with '/' replaces the base path, its segments dot-resolved; any other href
is merged RFC 3986 style — the base path is truncated after its last '/'
unless it already ends in '/', the href segments are appended, interior
empty segments of the merged list are dropped, and "." and ".." segments
are resolved against the preceding segments. -/
def urljoin (base href : String) : String :=
  if hrefHasScheme href then href
  else if strStartsWith href ("/") then
    rebuildFromBase base (splitSegments href.data)
  else
    rebuildFromBase base
      (filterMiddleEmpty (baseSegmentsForMerge base ++ splitSegments href.data))

/-- The resolution step of src/link_scraper.py line 76:
urljoin(base_url + '/', href) with base_url = url.rstrip('/'). -/
def resolveHref (url href : String) : String :=
  urljoin (rstripSlash url ++ "/") href

/-- Processing of one anchor href (src/link_scraper.py lines 69-84): strip
it; skip it when empty or fragment-only; resolve it to an absolute URL; skip
the result unless it has a scheme and a netloc (`valid` models the urlparse
check of lines 79-81); apply the optional regex filter (`filt` models
re.search of line 84).  Returns the absolute URL that survives, if any. -/
def processHref (url : String) (valid : String → Bool)
    (filt : Option (String → Bool)) (rawHref : String) : Option String :=
  let href := pyStrip rawHref
  if href = "" ∨ strStartsWith href ("#") = true then none
  else
    let absUrl := resolveHref url href
    if valid absUrl = false then none
    else
      match filt with
      | some f => if f absUrl then some absUrl else none
      | none => some absUrl

/-- The accumulation loop of src/link_scraper.py lines 65-92: `seen` is the
set of already-emitted URLs; a surviving URL is appended to the output only
when not yet seen. -/
def extractLoop (url : String) (valid : String → Bool)
    (filt : Option (String → Bool)) : List String → List String → List String
  | [], _ => []
  | h :: rest, seen =>
    match processHref url valid filt h with
    | none => extractLoop url valid filt rest seen
    | some a =>
      if a ∈ seen then extractLoop url valid filt rest seen
      else a :: extractLoop url valid filt rest (a :: seen)

/-- extract_links (src/link_scraper.py lines 60-92), over the sequence of
href attributes of the document's anchor elements. -/
def extract_links (url : String) (hrefs : List String)
    (valid : String → Bool) (filt : Option (String → Bool)) : List String :=
  extractLoop url valid filt hrefs []

/-- Deduplication keeping first occurrences, with an explicit seen set:
the shape of the loop above on an already-processed candidate list. -/
def dedupSeen : List String → List String → List String
  | [], _ => []
  | x :: xs, seen =>
    if x ∈ seen then dedupSeen xs seen
    else x :: dedupSeen xs (x :: seen)

/-- Modelled from the claim's words: the sequence of distinct values in
order of first occurrence — each value is kept where it first appears and
its later occurrences are removed. -/
def firstOccDedup : List String → List String
  | [] => []
  | x :: xs => x :: firstOccDedup (xs.filter (fun y => decide (y ≠ x)))
termination_by l => l.length
decreasing_by
  simp only [List.length_cons]
  exact Nat.lt_succ_of_le (List.length_filter_le _ _)

/- ===== C8 and C10: the pipeline of generate_and_append_to_excel
(src/main.py lines 83-287) and load_links (lines 28-33) ===== -/

/-- Split a character list into its newline-separated lines. -/
def splitOnNewline : List Char → List (List Char)
  | [] => [[]]
  | c :: rest =>
    match splitOnNewline rest with
    | [] => [[]]
    | line :: more =>
      if c == '\n' then [] :: line :: more
      else (c :: line) :: more

/-- load_links (src/main.py lines 28-33): none models a missing links.txt
(warning printed, empty list returned); otherwise the stripped non-blank
lines of the file's text. -/
def load_links (file : Option String) : List String :=
  match file with
  | none => []
  | some content =>
    ((splitOnNewline content.data).map (fun l => pyStrip (String.mk l))).filter
      (fun l => decide (l ≠ ""))

/-- What happens for one link of the per-link loop (src/main.py
lines 150-251), summarising the branch taken:
fetchFailed — fetch_page_with_retries raised, caught at line 248, nothing
else happens for the link;
success — the model call returned non-empty text that parsed and validated,
one record appended;
emptyRecovered — the response was empty (line 190), a debug_empty_response
artifact was written, the stricter second call succeeded and its text parsed
and validated, one record appended;
emptyFailed — the response was empty, the artifact was written, and the link
then failed (stricter call raised, or its text was empty or unusable);
badJson — the text failed the whole recovery ladder with no regex match, a
debug_bad_json artifact was written, the link failed;
parseOtherFail — the link failed after the model call without writing an
artifact (repair of the regex substring raised, or shape validation failed). -/
inductive LinkOutcome where
  | fetchFailed
  | success
  | emptyRecovered
  | emptyFailed
  | badJson
  | parseOtherFail
deriving DecidableEq

/-- The two debug artifact families of src/main.py. -/
inductive DebugKind where
  | emptyResponse
  | badJson
deriving DecidableEq

/-- The artifact file name: f-strings of src/main.py lines 192, 214, 236. -/
def debugFileName : DebugKind → Nat → String
  | DebugKind.emptyResponse, n => "debug_empty_response_" ++ toString n ++ ".txt"
  | DebugKind.badJson, n => "debug_bad_json_" ++ toString n ++ ".txt"

/-- Render one recorded debug write (kind and index) to its file name. -/
def debugWriteName (p : DebugKind × Nat) : String :=
  debugFileName p.1 p.2

/-- State accumulated by the per-link loop: number of
call_model_with_retries invocations, the debug writes (kind and the idx used
in the file name), and len(all_new_data). -/
structure LoopState where
  inferences : Nat
  debugWrites : List (DebugKind × Nat)
  records : Nat
deriving DecidableEq

/-- The per-link loop.  Each debug artifact uses
idx = len(all_new_data) + 1 at the moment of the write (src/main.py
lines 191, 213, 235); a successful link grows all_new_data by one
(line 245). -/
def runLinks (behave : String → LinkOutcome) :
    List String → Nat → LoopState
  | [], records => ⟨0, [], records⟩
  | l :: rest, records =>
    match behave l with
    | LinkOutcome.fetchFailed => runLinks behave rest records
    | LinkOutcome.success =>
      let s := runLinks behave rest (records + 1)
      ⟨s.inferences + 1, s.debugWrites, s.records⟩
    | LinkOutcome.emptyRecovered =>
      let s := runLinks behave rest (records + 1)
      ⟨s.inferences + 2, (DebugKind.emptyResponse, records + 1) :: s.debugWrites,
        s.records⟩
    | LinkOutcome.emptyFailed =>
      let s := runLinks behave rest records
      ⟨s.inferences + 2, (DebugKind.emptyResponse, records + 1) :: s.debugWrites,
        s.records⟩
    | LinkOutcome.badJson =>
      let s := runLinks behave rest records
      ⟨s.inferences + 1, (DebugKind.badJson, records + 1) :: s.debugWrites,
        s.records⟩
    | LinkOutcome.parseOtherFail =>
      let s := runLinks behave rest records
      ⟨s.inferences + 1, s.debugWrites, s.records⟩

/-- Configuration state probed by the early returns of
generate_and_append_to_excel before the per-link loop (src/main.py
lines 102-125). -/
structure RunConfig where
  outputFileExists : Bool
  outputFileWritable : Bool
  apiKeyPresent : Bool
  clientInitOk : Bool
deriving DecidableEq

/-- Externally visible effects of one run of generate_and_append_to_excel:
how many page fetches were started, how many inference calls were made, the
debug artifacts written, and whether the output spreadsheet was written. -/
structure RunEffects where
  fetches : Nat
  inferences : Nat
  debugWrites : List (DebugKind × Nat)
  excelWritten : Bool
deriving DecidableEq

/-- generate_and_append_to_excel (src/main.py lines 83-287) at the effect
level: load the links; return at once when the list is empty (lines 89-91);
return on an unwritable existing output file (lines 102-108), a missing API
key (lines 116-118) or a failed client construction (lines 120-125);
otherwise run the per-link loop (every link starts with a fetch, line 155)
and finally write the spreadsheet unless no data was extracted
(lines 255-257). -/
def generateRun (linksFile : Option String) (cfg : RunConfig)
    (behave : String → LinkOutcome) : RunEffects :=
  let links := load_links linksFile
  if links.isEmpty then ⟨0, 0, [], false⟩
  else if cfg.outputFileExists && !cfg.outputFileWritable then ⟨0, 0, [], false⟩
  else if !cfg.apiKeyPresent then ⟨0, 0, [], false⟩
  else if !cfg.clientInitOk then ⟨0, 0, [], false⟩
  else
    let s := runLinks behave links 0
    ⟨links.length, s.inferences, s.debugWrites, decide (s.records ≠ 0)⟩

/-- A configuration in which none of the early returns fires. -/
def allGoodConfig : RunConfig := ⟨false, true, true, true⟩

/- ===================== THEOREMS ===================== -/

/-- C1: inside call_model_with_retries, an attempt that raises an error with
extracted status `st` is followed by a retry (one sleep of the current
delay, then the next attempt with a doubled delay) exactly when `st` is in
the transient set and attempts remain; for any other status, or when no
status was extracted, the error propagates at once, with no sleep and no
further attempt. -/
theorem c1_inference_retry_iff {R : Type} (attempt : Nat → AttemptResult R)
    (maxRetries fuel a delay : Nat) (st : Option Int)
    (hfuel : fuel ≠ 0) (ha : a ≤ maxRetries)
    (he : attempt a = AttemptResult.exc st) :
    callLoop attempt maxRetries fuel a delay =
      if isTransientStatus st = true ∧ a < maxRetries then
        { outcome := (callLoop attempt maxRetries (fuel - 1) (a + 1) (delay * 2)).outcome
          sleeps := delay :: (callLoop attempt maxRetries (fuel - 1) (a + 1) (delay * 2)).sleeps
          tried := a :: (callLoop attempt maxRetries (fuel - 1) (a + 1) (delay * 2)).tried }
      else ⟨CallOutcome.raised st, [], [a]⟩ := by
  obtain ⟨f, rfl⟩ : ∃ f, fuel = f + 1 :=
    ⟨fuel - 1, (Nat.succ_pred_eq_of_pos (Nat.pos_of_ne_zero hfuel)).symm⟩
  simp only [callLoop, he, Nat.add_sub_cancel]
  by_cases ht : isTransientStatus st = true
  · by_cases hm : a = maxRetries
    · simp [ht, hm]
    · have hlt : a < maxRetries := lt_of_le_of_ne ha hm
      simp [ht, hm, hlt]
  · have hf : isTransientStatus st = false := by
      cases hv : isTransientStatus st
      · rfl
      · exact absurd hv ht
    simp [ht, hf]

/-- C1 witness: with every attempt raising status 404 (not transient), the
loop makes exactly one attempt, sleeps never, and re-raises status 404. -/
theorem c1_inference_retry_iff_witness :
    callLoop (fun _ => AttemptResult.exc (R := Unit) (some 404)) 4 4 1 2 =
      ⟨CallOutcome.raised (some 404), [], [1]⟩ := by
  have h := c1_inference_retry_iff (R := Unit)
    (fun _ => AttemptResult.exc (some 404)) 4 4 1 2 (some 404)
    (by decide) (by decide) rfl
  rw [h]
  decide

/-- C4 counterexample: a fetch of a malformed URL raises MissingSchema,
which the except clause catches like every other RequestException, so with
max_retries = 3 the fetch makes three attempts and sleeps twice (delays 1
and 2) before the error propagates — not the immediate, sleep-free failure
the claim states. -/
theorem c4_counterexample :
    fetch_page_with_retries malformedURLAttempt 3 1 =
      ⟨FetchOutcome.raised missingSchemaExc, [1, 2], [1, 2, 3]⟩ ∧
    (fetch_page_with_retries malformedURLAttempt 3 1).sleeps ≠ [] ∧
    (fetch_page_with_retries malformedURLAttempt 3 1).tried ≠ [1] := by
  refine ⟨by decide, by decide, by decide⟩

/-- C4 amended: in fetch_page_with_retries, an attempt that raises an
exception is retried after a sleep exactly when the exception is an instance
of requests.RequestException — a hierarchy that includes malformed-URL
errors such as MissingSchema — and attempts remain; only an exception
outside that hierarchy propagates at once, with no sleep and no further
attempt. -/
theorem c4_request_exception_retry (attempt : Nat → FetchAttempt)
    (maxRetries fuel a delay : Nat) (e : PyExc)
    (hfuel : fuel ≠ 0) (he : attempt a = FetchAttempt.exc e) :
    fetchLoop attempt maxRetries fuel a delay =
      if e.isRequestException = true ∧ a < maxRetries then
        { outcome := (fetchLoop attempt maxRetries (fuel - 1) (a + 1) (delay * 2)).outcome
          sleeps := delay :: (fetchLoop attempt maxRetries (fuel - 1) (a + 1) (delay * 2)).sleeps
          tried := a :: (fetchLoop attempt maxRetries (fuel - 1) (a + 1) (delay * 2)).tried }
      else ⟨FetchOutcome.raised e, [], [a]⟩ := by
  obtain ⟨f, rfl⟩ : ∃ f, fuel = f + 1 :=
    ⟨fuel - 1, (Nat.succ_pred_eq_of_pos (Nat.pos_of_ne_zero hfuel)).symm⟩
  simp only [fetchLoop, he, Nat.add_sub_cancel]
  by_cases hr : e.isRequestException = true
  · by_cases hm : a < maxRetries
    · simp [hr, hm]
    · simp [hr, hm]
  · have hf : e.isRequestException = false := by
      cases hv : e.isRequestException
      · rfl
      · exact absurd hv hr
    simp [hf]

/-- C4 witness: an exception outside the RequestException hierarchy (tagged
KeyboardInterrupt here) propagates from the first attempt with no sleep. -/
theorem c4_request_exception_retry_witness :
    fetchLoop (fun _ => FetchAttempt.exc ⟨false, "KeyboardInterrupt"⟩) 3 3 1 1 =
      ⟨FetchOutcome.raised ⟨false, "KeyboardInterrupt"⟩, [], [1]⟩ := by
  have h := c4_request_exception_retry
    (fun _ => FetchAttempt.exc ⟨false, "KeyboardInterrupt"⟩) 3 3 1 1
    ⟨false, "KeyboardInterrupt"⟩ (by decide) rfl
  rw [h]
  decide

/-- C3 counterexample: behaviours under which all four ladder steps fail
while the regex does find an array-of-objects shaped substring.  The first
conjunct records that every step fails; the second that the code then does
NOT write a debug artifact (the json_repair exception on the substring
propagates from src/main.py line 231, outside the branch of lines 234-238
that writes the artifact), contradicting the claim that all four steps
failing leads to a debug artifact and an unparsable-JSON error. -/
theorem c3_counterexample :
    firstSome (ladderSteps c3CexOracles "not json at all") = none ∧
    debugArtifactWritten (recoverJson c3CexOracles "not json at all") = false ∧
    parsedValue (recoverJson c3CexOracles "not json at all") = none := by
  refine ⟨rfl, rfl, rfl⟩

/-- C3 amended: the recovery applies the four-step ladder in order with the
first success winning — a valid JSON array surrounded by prose is recovered
at a later step rather than causing failure — but the debug artifact and the
unparsable-JSON ValueError happen exactly when the first two steps fail and
no substring matches the regex; when a substring matches and both its direct
parse and its repair fail, the repair exception propagates without any
debug artifact being written. -/
theorem c3_ladder_characterization {J : Type} (O : JsonOracles J)
    (raw : String) :
    parsedValue (recoverJson O raw) = firstSome (ladderSteps O raw) ∧
    debugArtifactWritten (recoverJson O raw) =
      ((O.jsonLoads raw).isNone && (O.jsonRepairLoads raw).isNone &&
        (O.regexSearchArrayOfObjects raw).isNone) := by
  cases h1 : O.jsonLoads raw with
  | some v => simp [recoverJson, ladderSteps, firstSome, parsedValue,
      debugArtifactWritten, h1]
  | none =>
    cases h2 : O.jsonRepairLoads raw with
    | some v => simp [recoverJson, ladderSteps, firstSome, parsedValue,
        debugArtifactWritten, h1, h2]
    | none =>
      cases h3 : O.regexSearchArrayOfObjects raw with
      | none => simp [recoverJson, ladderSteps, firstSome, parsedValue,
          debugArtifactWritten, h1, h2, h3]
      | some sub =>
        cases h4 : O.jsonLoads sub with
        | some v => simp [recoverJson, ladderSteps, firstSome, parsedValue,
            debugArtifactWritten, h1, h2, h3, h4]
        | none =>
          cases h5 : O.jsonRepairLoads sub with
          | some v => simp [recoverJson, ladderSteps, firstSome, parsedValue,
              debugArtifactWritten, h1, h2, h3, h4, h5]
          | none => simp [recoverJson, ladderSteps, firstSome, parsedValue,
              debugArtifactWritten, h1, h2, h3, h4, h5]

/-- C3 witness: the amended characterization applied to the concrete
counterexample oracles. -/
theorem c3_ladder_characterization_witness :
    parsedValue (recoverJson c3CexOracles "not json at all") =
      firstSome (ladderSteps c3CexOracles "not json at all") ∧
    debugArtifactWritten (recoverJson c3CexOracles "not json at all") =
      ((c3CexOracles.jsonLoads "not json at all").isNone &&
        (c3CexOracles.jsonRepairLoads "not json at all").isNone &&
        (c3CexOracles.regexSearchArrayOfObjects "not json at all").isNone) :=
  c3_ladder_characterization c3CexOracles "not json at all"

/-- C5 counterexample: the parsed value ["not a mapping"] is a one-element
list whose sole element is a string, not a mapping; the validation of
src/main.py lines 240-245 nevertheless accepts it and extends the batch
with the string, refuting the claim that a result is added only when its
sole element is a mapping. -/
theorem c5_counterexample :
    validateAndExtend [] (PyValue.list [PyValue.str "not a mapping"]) =
      Except.ok [PyValue.str "not a mapping"] ∧
    isOneElementMappingSeq (PyValue.list [PyValue.str "not a mapping"]) =
      false := by
  refine ⟨rfl, rfl⟩

/-- C5 amended: a parsed result is added to the batch if and only if it is a
sequence of exactly one element — the element's own type is never checked —
and on success the batch gains exactly that element in order. -/
theorem c5_validation_characterization (allData : List PyValue)
    (v w : PyValue) :
    (exceptOkValue (validateAndExtend allData v)).isSome = isOneElementList v ∧
    validateAndExtend allData (PyValue.list [w]) =
      Except.ok (allData ++ [w]) := by
  constructor
  · cases v with
    | list xs =>
      rcases xs with _ | ⟨x, _ | ⟨y, t⟩⟩ <;>
        simp [validateAndExtend, exceptOkValue, isOneElementList, isPyList,
          pyLen, pyListElems]
    | str s => simp [validateAndExtend, exceptOkValue, isOneElementList,
        isPyList, pyLen]
    | int n => simp [validateAndExtend, exceptOkValue, isOneElementList,
        isPyList, pyLen]
    | bool b => simp [validateAndExtend, exceptOkValue, isOneElementList,
        isPyList, pyLen]
    | pyNone => simp [validateAndExtend, exceptOkValue, isOneElementList,
        isPyList, pyLen]
    | dict es => simp [validateAndExtend, exceptOkValue, isOneElementList,
        isPyList, pyLen]
  · simp [validateAndExtend, isPyList, pyLen, pyListElems]

/-- C2: for merge_and_write with an existing, readable prior file, the rows
written are exactly the new rows whenever the prior frame is empty or its
column header sequence differs from the fixed six-field header, and the
prior rows followed by the new rows otherwise.  (When the prior frame is
empty the code takes the concatenation branch, but concatenating zero prior
rows with the new rows yields exactly the new rows.) -/
theorem c2_merge_write_rows {ρ : Type} (dfEx dfNew : DataFrame ρ) :
    writtenRows (mergeAndWrite true (some dfEx) dfNew) =
      if dfEx.rows.length = 0 ∨ dfEx.columns ≠ expected_columns then dfNew.rows
      else dfEx.rows ++ dfNew.rows := by
  by_cases h1 : dfEx.rows.length = 0
  · have hnil : dfEx.rows = [] := List.length_eq_zero.mp h1
    by_cases h2 : dfEx.columns = expected_columns <;>
      simp [mergeAndWrite, pdConcat, writtenRows, h1, h2, hnil]
  · have hpos : 0 < dfEx.rows.length := Nat.pos_of_ne_zero h1
    by_cases h2 : dfEx.columns = expected_columns <;>
      simp [mergeAndWrite, pdConcat, writtenRows, h1, h2, hpos]

/-- C2 witness: appending one new row to a readable prior file with the
matching header yields the prior row followed by the new row. -/
theorem c2_merge_write_rows_witness :
    writtenRows (mergeAndWrite true
        (some (DataFrame.mk (ρ := Nat) expected_columns [7])) (DataFrame.mk expected_columns [8])) =
      [7, 8] := by
  have h := c2_merge_write_rows (ρ := Nat)
    (DataFrame.mk expected_columns [7]) (DataFrame.mk expected_columns [8])
  simpa using h

/-- C9: when the prior output file exists but pd.read_excel raises (the file
is corrupt or not a spreadsheet), the except branch of src/main.py lines
275-277 writes a frame holding only the new records — the prior contents
are silently discarded and the run is not aborted. -/
theorem c9_unreadable_file_writes_new_only {ρ : Type} (dfNew : DataFrame ρ) :
    mergeAndWrite true none dfNew = SinkOutcome.written dfNew := rfl

/-- The accumulation loop, run over the already-processed candidate URLs,
is the dedupSeen loop. -/
theorem extractLoop_eq_dedupSeen (url : String) (valid : String → Bool)
    (filt : Option (String → Bool)) :
    ∀ (hrefs seen : List String),
      extractLoop url valid filt hrefs seen =
        dedupSeen (hrefs.filterMap (processHref url valid filt)) seen := by
  intro hrefs
  induction hrefs with
  | nil => intro seen; rfl
  | cons h rest ih =>
    intro seen
    cases hp : processHref url valid filt h with
    | none => simp [extractLoop, List.filterMap_cons, hp, ih]
    | some a =>
      by_cases hs : a ∈ seen <;>
        simp [extractLoop, List.filterMap_cons, dedupSeen, hp, hs, ih]

/-- Running the seen-set loop on a candidate list is first-occurrence
deduplication of the candidates not already seen. -/
theorem dedupSeen_eq_firstOccDedup :
    ∀ (l seen : List String),
      dedupSeen l seen =
        firstOccDedup (l.filter (fun y => decide (y ∉ seen))) := by
  intro l
  induction l with
  | nil => intro seen; simp [dedupSeen, firstOccDedup]
  | cons x xs ih =>
    intro seen
    by_cases hs : x ∈ seen
    · have hd : (fun y => decide (y ∉ seen)) x = false := by simp [hs]
      simp only [dedupSeen, if_pos hs, List.filter_cons, hd]
      simp only [Bool.false_eq_true, if_false]
      exact ih seen
    · have hd : (fun y => decide (y ∉ seen)) x = true := by simp [hs]
      have key : List.filter (fun y => decide (y ≠ x))
          (List.filter (fun y => decide (y ∉ seen)) xs) =
          List.filter (fun y => decide (y ∉ x :: seen)) xs := by
        rw [List.filter_filter]
        refine List.filter_congr ?_
        intro a _
        by_cases h1 : a = x <;> by_cases h2 : a ∈ seen <;>
          simp [h1, h2, List.mem_cons]
      simp only [dedupSeen, if_neg hs, List.filter_cons, hd, if_true]
      rw [firstOccDedup, key, ih (x :: seen)]

/-- Every element of the first-occurrence deduplication occurs in the
original list. -/
theorem firstOccDedup_subset (l : List String) :
    ∀ y ∈ firstOccDedup l, y ∈ l := by
  induction l using firstOccDedup.induct with
  | case1 => simp [firstOccDedup]
  | case2 x xs ih =>
    intro y hy
    rw [firstOccDedup] at hy
    rcases List.mem_cons.mp hy with rfl | hy'
    · exact List.mem_cons_self _ _
    · exact List.mem_cons_of_mem _ (List.mem_of_mem_filter (ih y hy'))

/-- First-occurrence deduplication yields a duplicate-free list. -/
theorem firstOccDedup_nodup (l : List String) : (firstOccDedup l).Nodup := by
  induction l using firstOccDedup.induct with
  | case1 => simp [firstOccDedup]
  | case2 x xs ih =>
    rw [firstOccDedup]
    refine List.nodup_cons.mpr ⟨?_, ih⟩
    intro hx
    have hmem := firstOccDedup_subset _ _ hx
    have := (List.mem_filter.mp hmem).2
    simp at this

/-- C6: for every base URL, validity check, optional filter and href
sequence, extract_links returns a sequence with no two equal strings, and
that sequence is exactly the first-occurrence deduplication of the
document's processed hyperlinks, each distinct absolute URL listed at the
position of its first occurrence. -/
theorem c6_extract_links_nodup_first_occurrence (url : String)
    (valid : String → Bool) (filt : Option (String → Bool))
    (hrefs : List String) :
    (extract_links url hrefs valid filt).Nodup ∧
    extract_links url hrefs valid filt =
      firstOccDedup (hrefs.filterMap (processHref url valid filt)) := by
  have he : extract_links url hrefs valid filt =
      firstOccDedup (hrefs.filterMap (processHref url valid filt)) := by
    unfold extract_links
    rw [extractLoop_eq_dedupSeen, dedupSeen_eq_firstOccDedup]
    congr 1
    simp
  exact ⟨he ▸ firstOccDedup_nodup _, he⟩

/-- The urljoin model agrees with urllib.parse.urljoin on a battery of
relative references exercising dot-segment resolution ("." skipped, ".."
popping one segment, over-popping past the root, a trailing dot segment
restoring the trailing slash), interior empty segments of base and href,
trailing slashes, a base without a path, and a root-relative reference. -/
theorem urljoin_matches_urllib_samples :
    urljoin "http://h/a/b/" "c" = "http://h/a/b/c" ∧
    urljoin "http://h/a/b/" "../c" = "http://h/a/c" ∧
    urljoin "http://h/a/b/" "./c" = "http://h/a/b/c" ∧
    urljoin "http://h/a/b/" "../../c" = "http://h/c" ∧
    urljoin "http://h/a/b/" "../../../c" = "http://h/c" ∧
    urljoin "http://h/a//b/" "c" = "http://h/a/b/c" ∧
    urljoin "http://h/a/b/" "c/./d" = "http://h/a/b/c/d" ∧
    urljoin "http://h/a/b/" "c/.." = "http://h/a/b/" ∧
    urljoin "http://h/a/b/" "c//d" = "http://h/a/b/c/d" ∧
    urljoin "http://h/a/../b/" "c" = "http://h/b/c" ∧
    urljoin "http://h/" "c" = "http://h/c" ∧
    urljoin "http://h" "c" = "http://h/c" ∧
    urljoin "http://h/a/b/" "c/" = "http://h/a/b/c/" ∧
    urljoin "http://h/a/b/" "." = "http://h/a/b/" ∧
    urljoin "http://h/a/b/" ".." = "http://h/a/" ∧
    urljoin "http://h/a/b/" "/x/../y" = "http://h/y" := by
  decide

/-- Every debug artifact written with len(all_new_data) = records pending
uses an index of at least records + 1. -/
theorem runLinks_debug_index_lb (behave : String → LinkOutcome) :
    ∀ (links : List String) (records : Nat) (p : DebugKind × Nat),
      p ∈ (runLinks behave links records).debugWrites → records + 1 ≤ p.2 := by
  intro links
  induction links with
  | nil => intro records p hp; simp [runLinks] at hp
  | cons l rest ih =>
    intro records p hp
    cases hb : behave l
    all_goals
      simp only [runLinks, hb] at hp
    case fetchFailed => exact ih records p hp
    case success =>
      exact le_trans (Nat.le_succ _) (ih (records + 1) p hp)
    case emptyRecovered =>
      rcases List.mem_cons.mp hp with rfl | hp'
      · exact le_refl _
      · exact le_trans (Nat.le_succ _) (ih (records + 1) p hp')
    case emptyFailed =>
      rcases List.mem_cons.mp hp with rfl | hp'
      · exact le_refl _
      · exact ih records p hp'
    case badJson =>
      rcases List.mem_cons.mp hp with rfl | hp'
      · exact le_refl _
      · exact ih records p hp'
    case parseOtherFail => exact ih records p hp

/-- C8 counterexample: a run over two links that both fail with unparsable
JSON (and no intervening success) writes its two debug artifacts to the SAME
file name debug_bad_json_1.txt — the index is one plus the number of
successfully extracted records, not a per-failure counter — so the second
write clobbers the first, refuting sequential numbering and distinctness. -/
theorem c8_counterexample :
    ((generateRun (some "l1\nl2") allGoodConfig
        (fun _ => LinkOutcome.badJson)).debugWrites.map debugWriteName) =
      ["debug_bad_json_1.txt", "debug_bad_json_1.txt"] ∧
    ¬ ((generateRun (some "l1\nl2") allGoodConfig
        (fun _ => LinkOutcome.badJson)).debugWrites.map debugWriteName).Nodup := by
  refine ⟨by decide, by decide⟩

/-- C8 amended: each debug artifact is numbered one plus the count of
records accumulated when it is written, so the indices of the debug
artifacts of a run are nondecreasing across failures — they increase only
when a success intervenes, and consecutive failures of the same kind with no
intervening success reuse the same file name. -/
theorem c8_debug_indices_monotone (behave : String → LinkOutcome)
    (links : List String) (records : Nat) :
    List.Chain' (fun m n => m ≤ n)
      ((runLinks behave links records).debugWrites.map Prod.snd) := by
  induction links generalizing records with
  | nil => simp [runLinks]
  | cons l rest ih =>
    cases hb : behave l
    all_goals simp only [runLinks, hb]
    case fetchFailed => exact ih records
    case success => exact ih (records + 1)
    case emptyRecovered =>
      rw [List.map_cons, List.chain'_cons']
      refine ⟨?_, ih (records + 1)⟩
      intro y hy
      rw [List.head?_map] at hy
      cases hh : ((runLinks behave rest (records + 1)).debugWrites).head? with
      | none => rw [hh] at hy; simp at hy
      | some q =>
        rw [hh] at hy
        simp only [Option.map_some', Option.map_some, Option.mem_def,
          Option.some.injEq] at hy
        subst hy
        have hq : q ∈ (runLinks behave rest (records + 1)).debugWrites :=
          List.mem_of_mem_head? hh
        exact le_trans (Nat.le_succ _)
          (runLinks_debug_index_lb behave rest (records + 1) q hq)
    case emptyFailed =>
      rw [List.map_cons, List.chain'_cons']
      refine ⟨?_, ih records⟩
      intro y hy
      rw [List.head?_map] at hy
      cases hh : ((runLinks behave rest records).debugWrites).head? with
      | none => rw [hh] at hy; simp at hy
      | some q =>
        rw [hh] at hy
        simp only [Option.map_some', Option.map_some, Option.mem_def,
          Option.some.injEq] at hy
        subst hy
        exact runLinks_debug_index_lb behave rest records q
          (List.mem_of_mem_head? hh)
    case badJson =>
      rw [List.map_cons, List.chain'_cons']
      refine ⟨?_, ih records⟩
      intro y hy
      rw [List.head?_map] at hy
      cases hh : ((runLinks behave rest records).debugWrites).head? with
      | none => rw [hh] at hy; simp at hy
      | some q =>
        rw [hh] at hy
        simp only [Option.map_some', Option.map_some, Option.mem_def,
          Option.some.injEq] at hy
        subst hy
        exact runLinks_debug_index_lb behave rest records q
          (List.mem_of_mem_head? hh)
    case parseOtherFail => exact ih records

/-- C10: with no links file, load_links returns the empty list, and the run
returns at the empty-links guard: no page fetch is started, no inference
call is made, no debug artifact and no output spreadsheet is written. -/
theorem c10_missing_links_file_no_effects (cfg : RunConfig)
    (behave : String → LinkOutcome) :
    load_links none = [] ∧
    generateRun none cfg behave = ⟨0, 0, [], false⟩ := by
  exact ⟨rfl, rfl⟩

